import Mathlib

/-!
Verification development for the relationship-agent orchestration core.

The definitions below are a shallow embedding of the TypeScript sources:
  * `src/src/types/index.ts`           — the `ConversationState` record
  * `src/src/watchers/conversation-tracker.ts` — the `ConversationTracker` store
  * `src/src/utils/approval-parser.ts` — the approval/denial classifier
  * the event-driven agent core (`sendTakeoverPrompt`, `sendAgentMessage`)
  * the re-activation logic of `src/src/index.ts`

JavaScript `Date` values are embedded as `Int` millisecond timestamps
(`Date.getTime()`); the JS `Map` backing the tracker is embedded as an
insertion-ordered association list, matching `Map` iteration order.
External collaborators (the transport `sdk.send`, the LLM generation call)
are modelled by explicit parameters: a `Bool` for send success and a
`String` for generated text, since the core treats both as opaque.
-/

/-- Embeds the `Message` shape used by the tracker: text, `date` (ms) and
`isFromMe`. -/
structure Message where
  text : String
  date : Int
  isFromMe : Bool
deriving Repr, DecidableEq

/-- Embeds `ConversationState` from `src/src/types/index.ts`. -/
structure ConversationState where
  chatId : String
  friendName : String
  lastOutgoingTimestamp : Int
  lastIncomingTimestamp : Option Int
  isAgentActive : Bool
  awaitingApproval : Bool
  messagesSent : Nat
  lastAgentDeactivationTime : Option Int
  userMessageHistory : List Message
  conversationHistory : List Message
deriving Repr, DecidableEq

/-- The tracker's backing store: `Map<string, ConversationState>` embedded as
an insertion-ordered association list. -/
abbrev Tracker := List (String × ConversationState)

/-- Embeds `this.conversations.get(chatId)`. -/
def getConversation : Tracker → String → Option ConversationState
  | [], _ => none
  | (k, v) :: rest, chatId => if k = chatId then some v else getConversation rest chatId

/-- Embeds `this.conversations.set(chatId, conv)`: JS `Map.set` replaces in place or
appends at the end. -/
def setConv : Tracker → String → ConversationState → Tracker
  | [], chatId, c => [(chatId, c)]
  | (k, v) :: rest, chatId, c =>
      if k = chatId then (chatId, c) :: rest else (k, v) :: setConv rest chatId c

/-- The defaults used by `getOrCreateConversation` (conversation-tracker.ts,
lines 234-246); `lastOutgoingTimestamp` defaults to `new Date()`, passed in as
`now`. -/
def defaultConversation (chatId : String) (now : Int) : ConversationState :=
  { chatId := chatId
    friendName := "your friend"
    lastOutgoingTimestamp := now
    lastIncomingTimestamp := none
    isAgentActive := false
    awaitingApproval := false
    messagesSent := 0
    lastAgentDeactivationTime := none
    userMessageHistory := []
    conversationHistory := [] }

/-- Embeds `getOrCreateConversation` (conversation-tracker.ts, lines 231-255). -/
def getOrCreateConversation (t : Tracker) (chatId : String) (now : Int) :
    ConversationState × Tracker :=
  match getConversation t chatId with
  | some c => (c, t)
  | none =>
      let c := defaultConversation chatId now
      (c, setConv t chatId c)

/-- Embeds `updateOutgoingMessage` (conversation-tracker.ts, lines 20-51).  The
source comment on the unconditional timestamp write reads: "Always update
timestamp (fixes inactivity loop bug)". -/
def updateOutgoingMessage (t : Tracker) (chatId : String) (message : Message)
    (isAgentMessage : Bool) (now : Int) : Tracker :=
  let r := getOrCreateConversation t chatId now
  let conv1 := { r.1 with lastOutgoingTimestamp := message.date }
  let conv2 :=
    if !isAgentMessage then
      { conv1 with userMessageHistory := conv1.userMessageHistory ++ [message] }
    else conv1
  let conv3 :=
    if conv2.isAgentActive && !isAgentMessage then
      { conv2 with isAgentActive := false, messagesSent := 0 }
    else conv2
  let conv4 :=
    if !isAgentMessage then { conv3 with awaitingApproval := false } else conv3
  setConv r.2 chatId conv4

/-- Embeds `updateIncomingMessage` (conversation-tracker.ts, lines 56-67). -/
def updateIncomingMessage (t : Tracker) (chatId : String) (message : Message)
    (now : Int) : Tracker :=
  let r := getOrCreateConversation t chatId now
  let conv1 := { r.1 with
    lastIncomingTimestamp := some message.date
    conversationHistory := r.1.conversationHistory ++ [message] }
  setConv r.2 chatId conv1

/-- Embeds `markAwaitingApproval` (conversation-tracker.ts, lines 111-121): silent
no-op when the id has no record. -/
def markAwaitingApproval (t : Tracker) (chatId : String) : Tracker :=
  match getConversation t chatId with
  | some c => setConv t chatId { c with awaitingApproval := true }
  | none => t

/-- Embeds `markAgentActive` (conversation-tracker.ts, lines 126-137). -/
def markAgentActive (t : Tracker) (chatId : String) : Tracker :=
  match getConversation t chatId with
  | some c =>
      setConv t chatId { c with isAgentActive := true, awaitingApproval := false, messagesSent := 0 }
  | none => t

/-- Embeds `markAgentInactive` (conversation-tracker.ts, lines 142-153); `new Date()`
is passed in as `now`. -/
def markAgentInactive (t : Tracker) (chatId : String) (now : Int) : Tracker :=
  match getConversation t chatId with
  | some c =>
      setConv t chatId
        { c with isAgentActive := false, messagesSent := 0, lastAgentDeactivationTime := some now }
  | none => t

/-- Embeds `incrementMessageCount` (conversation-tracker.ts, lines 158-164). -/
def incrementMessageCount (t : Tracker) (chatId : String) : Tracker :=
  match getConversation t chatId with
  | some c => setConv t chatId { c with messagesSent := c.messagesSent + 1 }
  | none => t

/-- Embeds `resetConversation` (conversation-tracker.ts, lines 169-181). -/
def resetConversation (t : Tracker) (chatId : String) : Tracker :=
  match getConversation t chatId with
  | some c =>
      setConv t chatId { c with isAgentActive := false, awaitingApproval := false, messagesSent := 0 }
  | none => t

/-- Embeds `setFriendName` (conversation-tracker.ts, lines 220-226). -/
def setFriendName (t : Tracker) (chatId : String) (friendName : String) : Tracker :=
  match getConversation t chatId with
  | some c => setConv t chatId { c with friendName := friendName }
  | none => t

/-- The self-thread skip of `getInactiveConversations` (conversation-tracker.ts,
line 78): `if (userIdentifier && conv.chatId === userIdentifier) continue` —
JS truthiness makes an empty-string identifier falsy. -/
def skipSelfCheck (conv : ConversationState) : Option String → Bool
  | some uid => if uid ≠ "" ∧ conv.chatId = uid then true else false
  | none => false

/-- The per-conversation eligibility test inside the loop of
`getInactiveConversations` (conversation-tracker.ts, lines 76-103), with
`now` passed in for `Date.now()`.  The trailing `!isAgentActive &&
!awaitingApproval` conjunct is the source's "double-check ... extra safeguard
against race conditions" at line 97. -/
def eligibleForOffer (conv : ConversationState) (now thresholdMs maxInactivityMs : Int)
    (userIdentifier : Option String) : Bool :=
  if skipSelfCheck conv userIdentifier then false
  else
    let inactivityMs := now - conv.lastOutgoingTimestamp
    if conv.isAgentActive || conv.awaitingApproval then false
    else if inactivityMs ≥ thresholdMs ∧ inactivityMs ≤ maxInactivityMs then
      match conv.lastIncomingTimestamp with
      | some tIn =>
          if now - tIn < 300000 then !conv.isAgentActive && !conv.awaitingApproval
          else false
      | none => false
    else false

/-- Embeds `getInactiveConversations` (conversation-tracker.ts, lines 72-106): the
loop over `this.conversations.values()` pushing eligible records, embedded as
an order-preserving filter over the map's values. -/
def getInactiveConversations (t : Tracker) (now thresholdMs maxInactivityMs : Int)
    (userIdentifier : Option String) : List ConversationState :=
  (t.map Prod.snd).filter
    (fun conv => eligibleForOffer conv now thresholdMs maxInactivityMs userIdentifier)

/-- Keyword list `APPROVAL_KEYWORDS` (approval-parser.ts, lines 5-20). -/
def APPROVAL_KEYWORDS : List String :=
  ["take over", "yes", "yeah", "yep", "sure", "ok", "okay", "do it",
   "go ahead", "please", "yea", "ye", "ya", "k"]

/-- Keyword list `DENIAL_KEYWORDS` (approval-parser.ts, lines 22-34). -/
def DENIAL_KEYWORDS : List String :=
  ["no", "nope", "don\x27t", "dont", "cancel", "nevermind", "never mind",
   "nah", "stop", "not now", "later"]

/-- Character-list helper for `String.prototype.includes`: does `sub` match at
the head of `hay`? -/
def leadMatch : List Char → List Char → Bool
  | [], _ => true
  | _ :: _, [] => false
  | a :: as, b :: bs => a = b && leadMatch as bs

/-- Does `sub` occur anywhere in `hay`? -/
def occursIn (sub : List Char) : List Char → Bool
  | [] => sub.isEmpty
  | c :: rest => leadMatch sub (c :: rest) || occursIn sub rest

/-- JS `hay.includes(sub)`: substring containment over character sequences. -/
def includes (hay sub : List Char) : Bool :=
  occursIn sub hay

/-- JS `toLowerCase`, applied character by character. -/
def toLowerChars (l : List Char) : List Char :=
  l.map Char.toLower

/-- JS `trim`: strip leading and trailing whitespace. -/
def trimChars (l : List Char) : List Char :=
  ((l.dropWhile Char.isWhitespace).reverse.dropWhile Char.isWhitespace).reverse

/-- The normalization `messageText.toLowerCase().trim()` shared by `isApproval`
and `isDenial`, as a character sequence. -/
def normalizeResponse (messageText : String) : List Char :=
  trimChars (toLowerChars messageText.toList)

/-- Embeds `isApproval` (approval-parser.ts, lines 39-42). -/
def isApproval (messageText : String) : Bool :=
  let normalized := normalizeResponse messageText
  APPROVAL_KEYWORDS.any fun keyword => includes normalized keyword.toList

/-- Embeds `isDenial` (approval-parser.ts, lines 47-50). -/
def isDenial (messageText : String) : Bool :=
  let normalized := normalizeResponse messageText
  DENIAL_KEYWORDS.any fun keyword => includes normalized keyword.toList

/-- Result type of `parseUserResponse`. -/
inductive UserResponse where
  | approve
  | deny
  | unclear
deriving Repr, DecidableEq

/-- Embeds `parseUserResponse` (approval-parser.ts, lines 56-66): approval is tested
first, denial second. -/
def parseUserResponse (messageText : String) : UserResponse :=
  if isApproval messageText then UserResponse.approve
  else if isDenial messageText then UserResponse.deny
  else UserResponse.unclear

/-- The instruction selected for a generation turn (`sendAgentMessage`,
event-driven agent core, lines 195-199): the turn whose pre-increment count
has reached `maxMessagesToSend - 1` is prompted as the LAST, wind-down
message. -/
inductive TurnInstruction where
  | windDown
  | normal
deriving Repr, DecidableEq

/-- Embeds `sendAgentMessage` (event-driven agent core, lines 158-243), embedded as a
function of the sanitized generated text (`cleanedText` stands for the output
of the external LLM call after `cleanupAgentResponse`); `now` stands for
`new Date()` inside `markAgentInactive`.  Returns the updated tracker and the
message sent to the friend (text plus the instruction it was generated under),
or `none` when the sanitized text was empty and the turn aborted. -/
def sendAgentMessage (t : Tracker) (conv : ConversationState) (cleanedText : String)
    (maxMessagesToSend : Nat) (now : Int) : Tracker × Option (String × TurnInstruction) :=
  let messagesSent := conv.messagesSent
  let instr :=
    if messagesSent ≥ maxMessagesToSend - 1 then TurnInstruction.windDown
    else TurnInstruction.normal
  if cleanedText = "" then
    (markAgentInactive t conv.chatId now, none)
  else
    let t1 := incrementMessageCount t conv.chatId
    let t2 :=
      match getConversation t1 conv.chatId with
      | some updatedConv =>
          if updatedConv.messagesSent ≥ maxMessagesToSend then
            markAgentInactive t1 conv.chatId now
          else t1
      | none => t1
    (t2, some (cleanedText, instr))

/-- Observable steps of the offer path, in execution order. -/
inductive OfferEvent where
  | markedAwaiting
  | sendAttempt
  | cleared
deriving Repr, DecidableEq

/-- Embeds `sendTakeoverPrompt` (event-driven agent core, lines 40-76): guard against
an already active/awaiting conversation, resolve and store the friend name,
mark `awaitingApproval` FIRST, then attempt the send; on send failure run
`resetConversation`.  `friendName` stands for the external `getFriendName`
resolution and `sendOk` for the outcome of `sdk.send`.  The second component
lists the observable steps in order. -/
def sendTakeoverPrompt (t : Tracker) (conv : ConversationState) (friendName : String)
    (sendOk : Bool) : Tracker × List OfferEvent :=
  if conv.isAgentActive || conv.awaitingApproval then (t, [])
  else
    let t1 := setFriendName t conv.chatId friendName
    let t2 := markAwaitingApproval t1 conv.chatId
    if sendOk then (t2, [OfferEvent.markedAwaiting, OfferEvent.sendAttempt])
    else
      (resetConversation t2 conv.chatId,
       [OfferEvent.markedAwaiting, OfferEvent.sendAttempt, OfferEvent.cleared])

/-- The guard under which `main` (src/src/index.ts, lines 151-156) schedules a
delayed re-activation when a friend message arrives: a recorded deactivation
time, agent not active, not awaiting approval, and deactivated less than five
minutes ago. -/
def reactivationScheduleCheck (conv : ConversationState) (now : Int) : Bool :=
  match conv.lastAgentDeactivationTime with
  | some d => !conv.isAgentActive && !conv.awaitingApproval && (now - d < 300000)
  | none => false

/-- The delay-expiry re-check of the scheduled re-activation
(src/src/index.ts, lines 163-176): `activateAgent` runs iff the conversation
exists and is neither active nor awaiting approval. -/
def reactivationExpiryCheck (t : Tracker) (chatId : String) : Bool :=
  match getConversation t chatId with
  | some c => !c.isAgentActive && !c.awaitingApproval
  | none => false

/-- A concrete idle conversation used by concrete instantiations below. -/
def convIdleF : ConversationState :=
  { chatId := "friend"
    friendName := "Sam"
    lastOutgoingTimestamp := 0
    lastIncomingTimestamp := some 50
    isAgentActive := false
    awaitingApproval := false
    messagesSent := 0
    lastAgentDeactivationTime := none
    userMessageHistory := []
    conversationHistory := [] }

/-- A concrete active session used by concrete instantiations below. -/
def convActiveF : ConversationState :=
  { convIdleF with isAgentActive := true, messagesSent := 2 }

/-- A conversation in the post-session grace window: agent inactive,
deactivated at t=10. -/
def convCooling : ConversationState :=
  { convIdleF with lastAgentDeactivationTime := some 10 }

/-- A concrete conversation with an active agent, for instantiations. -/
def convActiveOff : ConversationState :=
  { convIdleF with isAgentActive := true }

theorem getConversation_setConv_self (t : Tracker) (chatId : String) (c : ConversationState) :
    getConversation (setConv t chatId c) chatId = some c := by
  induction t with
  | nil => simp [setConv, getConversation]
  | cons kv rest ih =>
      obtain ⟨k, v⟩ := kv
      by_cases hk : k = chatId
      · simp [setConv, hk, getConversation]
      · simp [setConv, hk, getConversation, ih]

theorem eligibleForOffer_eq_true_iff (conv : ConversationState)
    (now thresholdMs maxInactivityMs : Int) (userIdentifier : Option String) :
    eligibleForOffer conv now thresholdMs maxInactivityMs userIdentifier = true ↔
      skipSelfCheck conv userIdentifier = false ∧
      conv.isAgentActive = false ∧ conv.awaitingApproval = false ∧
      thresholdMs ≤ now - conv.lastOutgoingTimestamp ∧
      now - conv.lastOutgoingTimestamp ≤ maxInactivityMs ∧
      ∃ tIn, conv.lastIncomingTimestamp = some tIn ∧ now - tIn < 300000 := by
  cases hs : skipSelfCheck conv userIdentifier <;>
    cases ha : conv.isAgentActive <;>
      cases hw : conv.awaitingApproval <;>
        cases hin : conv.lastIncomingTimestamp <;>
          simp [eligibleForOffer, hs, ha, hw, hin] <;>
            first
              | tauto
              | (split_ifs <;> simp_all <;> omega)

/-- C1: counterexample.  The claim says recording an automated own message
leaves `lastOutgoingTimestamp` unchanged; in the code the write is
unconditional ("Always update timestamp"), so a conversation whose clock
stood at 0 jumps to the automated message's date 500. -/
theorem automated_send_resets_clock_cex :
    convIdleF.lastOutgoingTimestamp = 0 ∧
    (getConversation
        (updateOutgoingMessage [("friend", convIdleF)] "friend"
          { text := "auto", date := 500, isFromMe := true } true 999) "friend").map
      ConversationState.lastOutgoingTimestamp = some 500 := by
  decide

/-- C1 (amended): recording an automated own message (`isAgentMessage = true`)
always sets `lastOutgoingTimestamp` to the message date and changes nothing
else: histories, flags and counters are untouched. -/
theorem automated_send_updates_clock (t : Tracker) (chatId : String)
    (c : ConversationState) (m : Message) (now : Int)
    (h : getConversation t chatId = some c) :
    getConversation (updateOutgoingMessage t chatId m true now) chatId =
      some { c with lastOutgoingTimestamp := m.date } := by
  simp [updateOutgoingMessage, getOrCreateConversation, h, getConversation_setConv_self]

/-- Witness for `automated_send_updates_clock` at a concrete tracker. -/
theorem automated_send_updates_clock_witness :
    getConversation [("friend", convIdleF)] "friend" = some convIdleF ∧
    getConversation
        (updateOutgoingMessage [("friend", convIdleF)] "friend"
          { text := "auto", date := 500, isFromMe := true } true 999) "friend" =
      some { convIdleF with lastOutgoingTimestamp := 500 } :=
  ⟨by decide,
   automated_send_updates_clock [("friend", convIdleF)] "friend" convIdleF
     { text := "auto", date := 500, isFromMe := true } 999 (by decide)⟩

/-- C3: any non-automated own message recorded while the agent is active
immediately deactivates the agent, zeroes the session counter and clears the
approval flag. -/
theorem user_reclaim_unconditional (t : Tracker) (chatId : String)
    (c : ConversationState) (m : Message) (now : Int)
    (h : getConversation t chatId = some c) (hact : c.isAgentActive = true) :
    ∃ c', getConversation (updateOutgoingMessage t chatId m false now) chatId = some c' ∧
      c'.isAgentActive = false ∧ c'.messagesSent = 0 ∧ c'.awaitingApproval = false := by
  have hres : getConversation (updateOutgoingMessage t chatId m false now) chatId =
      some { c with
        lastOutgoingTimestamp := m.date
        userMessageHistory := c.userMessageHistory ++ [m]
        isAgentActive := false
        messagesSent := 0
        awaitingApproval := false } := by
    simp [updateOutgoingMessage, getOrCreateConversation, h, hact, getConversation_setConv_self]
  exact ⟨_, hres, rfl, rfl, rfl⟩

/-- Witness for `user_reclaim_unconditional` at a concrete active session. -/
theorem user_reclaim_unconditional_witness :
    getConversation [("friend", convActiveF)] "friend" = some convActiveF ∧
    convActiveF.isAgentActive = true ∧
    ∃ c', getConversation
        (updateOutgoingMessage [("friend", convActiveF)] "friend"
          { text := "im back", date := 70, isFromMe := true } false 70) "friend" = some c' ∧
      c'.isAgentActive = false ∧ c'.messagesSent = 0 ∧ c'.awaitingApproval = false :=
  ⟨by decide, by decide,
   user_reclaim_unconditional [("friend", convActiveF)] "friend" convActiveF
     { text := "im back", date := 70, isFromMe := true } 70 (by decide) (by decide)⟩

theorem occursIn_singleton (a : Char) (l : List Char) (h : a ∈ l) :
    occursIn [a] l = true := by
  induction l with
  | nil => simp at h
  | cons c rest ih =>
      rcases List.mem_cons.mp h with h1 | h2
      · subst h1
        simp [occursIn, leadMatch]
      · simp [occursIn, ih h2]

/-- C2: counterexample.  The claim says denial takes precedence when a text
contains both an approval and a denial keyword; `"no, ok"` contains the
denial keyword `"no"` and the approval keyword `"ok"`, yet
`parseUserResponse` classifies it as `approve` because `isApproval` is
tested first. -/
theorem deny_precedence_cex :
    isApproval "no, ok" = true ∧ isDenial "no, ok" = true ∧
    parseUserResponse "no, ok" = UserResponse.approve ∧
    parseUserResponse "no, ok" ≠ UserResponse.deny := by
  decide

/-- C2 (amended): approval takes precedence on ties — any text containing an
approval keyword is classified `approve`, even when it also contains a denial
keyword. -/
theorem approve_precedence_on_tie (s kwa kwd : String)
    (ha : kwa ∈ APPROVAL_KEYWORDS) (hd : kwd ∈ DENIAL_KEYWORDS)
    (hma : includes (normalizeResponse s) kwa.toList = true)
    (hmd : includes (normalizeResponse s) kwd.toList = true) :
    parseUserResponse s = UserResponse.approve := by
  have happ : isApproval s = true := by
    rw [isApproval, List.any_eq_true]
    exact ⟨kwa, ha, hma⟩
  simp [parseUserResponse, happ]

/-- Witness for `approve_precedence_on_tie` on the tie text `"no, ok"`. -/
theorem approve_precedence_on_tie_witness :
    ("ok" ∈ APPROVAL_KEYWORDS) ∧ ("no" ∈ DENIAL_KEYWORDS) ∧
    includes (normalizeResponse "no, ok") "ok".toList = true ∧
    includes (normalizeResponse "no, ok") "no".toList = true ∧
    parseUserResponse "no, ok" = UserResponse.approve :=
  ⟨by decide, by decide, by decide, by decide,
   approve_precedence_on_tie "no, ok" "ok" "no" (by decide) (by decide) (by decide) (by decide)⟩

/-- C10: because `"k"` is an approval keyword and approval is tested before
denial, every input whose trimmed lower-cased form contains the letter `k`
anywhere is classified `approve`, whatever denial keywords it also
contains. -/
theorem k_substring_forces_approve (s : String) (h : ('k' ∈ normalizeResponse s)) :
    parseUserResponse s = UserResponse.approve := by
  have happ : isApproval s = true := by
    rw [isApproval, List.any_eq_true]
    exact ⟨"k", by decide, occursIn_singleton 'k' _ h⟩
  simp [parseUserResponse, happ]

/-- Witness for `k_substring_forces_approve`: `"think about it"` contains no
approval wording but has a `k`, and is classified `approve`. -/
theorem k_substring_forces_approve_witness :
    ('k' ∈ normalizeResponse "think about it") ∧
    parseUserResponse "think about it" = UserResponse.approve :=
  ⟨by decide, k_substring_forces_approve "think about it" (by decide)⟩

theorem setFriendName_get (t : Tracker) (chatId name : String) (c : ConversationState)
    (h : getConversation t chatId = some c) :
    getConversation (setFriendName t chatId name) chatId = some { c with friendName := name } := by
  simp [setFriendName, h, getConversation_setConv_self]

theorem markAwaitingApproval_get (t : Tracker) (chatId : String) (c : ConversationState)
    (h : getConversation t chatId = some c) :
    getConversation (markAwaitingApproval t chatId) chatId =
      some { c with awaitingApproval := true } := by
  simp [markAwaitingApproval, h, getConversation_setConv_self]

theorem resetConversation_get (t : Tracker) (chatId : String) (c : ConversationState)
    (h : getConversation t chatId = some c) :
    getConversation (resetConversation t chatId) chatId =
      some { c with isAgentActive := false, awaitingApproval := false, messagesSent := 0 } := by
  simp [resetConversation, h, getConversation_setConv_self]

theorem incrementMessageCount_get (t : Tracker) (chatId : String) (c : ConversationState)
    (h : getConversation t chatId = some c) :
    getConversation (incrementMessageCount t chatId) chatId =
      some { c with messagesSent := c.messagesSent + 1 } := by
  simp [incrementMessageCount, h, getConversation_setConv_self]

theorem markAgentInactive_get (t : Tracker) (chatId : String) (now : Int) (c : ConversationState)
    (h : getConversation t chatId = some c) :
    getConversation (markAgentInactive t chatId now) chatId =
      some { c with isAgentActive := false, messagesSent := 0,
                    lastAgentDeactivationTime := some now } := by
  simp [markAgentInactive, h, getConversation_setConv_self]

/-- C4: in a generation turn whose post-increment count reaches
`maxMessagesToSend`, the message that is sent was generated under the
wind-down ("LAST message") instruction, and the very same invocation
deactivates the session (`markAgentInactive`), stamping the deactivation
time. -/
theorem final_turn_winds_down_and_deactivates (t : Tracker) (conv : ConversationState)
    (cleanedText : String) (maxMessagesToSend : Nat) (now : Int)
    (h : getConversation t conv.chatId = some conv)
    (hcount : conv.messagesSent + 1 = maxMessagesToSend)
    (htext : cleanedText ≠ "") :
    (sendAgentMessage t conv cleanedText maxMessagesToSend now).2 =
      some (cleanedText, TurnInstruction.windDown) ∧
    ∃ c', getConversation (sendAgentMessage t conv cleanedText maxMessagesToSend now).1
        conv.chatId = some c' ∧
      c'.isAgentActive = false ∧ c'.messagesSent = 0 ∧
      c'.lastAgentDeactivationTime = some now := by
  have hinstr : conv.messagesSent ≥ maxMessagesToSend - 1 := by omega
  have h1 := incrementMessageCount_get t conv.chatId conv h
  have h2 : conv.messagesSent + 1 ≥ maxMessagesToSend := by omega
  have h3 := markAgentInactive_get (incrementMessageCount t conv.chatId) conv.chatId now
    { conv with messagesSent := conv.messagesSent + 1 } h1
  constructor
  · simp [sendAgentMessage, htext, hinstr]
  · refine ⟨{ conv with
                isAgentActive := false, messagesSent := 0,
                lastAgentDeactivationTime := some now }, ?_, rfl, rfl, rfl⟩
    simpa [sendAgentMessage, htext, h1, h2] using h3

/-- Witness for `final_turn_winds_down_and_deactivates`: a session at 2 of 3
turns sends its third message and deactivates. -/
theorem final_turn_winds_down_and_deactivates_witness :
    getConversation [("friend", convActiveF)] convActiveF.chatId = some convActiveF ∧
    convActiveF.messagesSent + 1 = 3 ∧
    (sendAgentMessage [("friend", convActiveF)] convActiveF "gtg talk later" 3 95).2 =
      some ("gtg talk later", TurnInstruction.windDown) ∧
    ∃ c', getConversation
        (sendAgentMessage [("friend", convActiveF)] convActiveF "gtg talk later" 3 95).1
        convActiveF.chatId = some c' ∧
      c'.isAgentActive = false ∧ c'.messagesSent = 0 ∧
      c'.lastAgentDeactivationTime = some 95 :=
  ⟨by decide, by decide,
   (final_turn_winds_down_and_deactivates [("friend", convActiveF)] convActiveF
      "gtg talk later" 3 95 (by decide) (by decide) (by decide)).1,
   (final_turn_winds_down_and_deactivates [("friend", convActiveF)] convActiveF
      "gtg talk later" 3 95 (by decide) (by decide) (by decide)).2⟩

/-- C5: the offer step records `markedAwaiting` strictly before the send
attempt in its event order, and on a failed send the final store no longer
awaits approval, while a successful send leaves the conservative
awaiting-approval state. -/
theorem offer_marks_awaiting_before_send (t : Tracker) (conv : ConversationState)
    (friendName : String) (sendOk : Bool)
    (h : getConversation t conv.chatId = some conv)
    (ha : conv.isAgentActive = false) (hw : conv.awaitingApproval = false) :
    (∃ i j, i < j ∧
      (sendTakeoverPrompt t conv friendName sendOk).2.get? i = some OfferEvent.markedAwaiting ∧
      (sendTakeoverPrompt t conv friendName sendOk).2.get? j = some OfferEvent.sendAttempt) ∧
    (sendOk = false →
      ∃ c', getConversation (sendTakeoverPrompt t conv friendName sendOk).1 conv.chatId =
          some c' ∧ c'.awaitingApproval = false) ∧
    (sendOk = true →
      ∃ c', getConversation (sendTakeoverPrompt t conv friendName sendOk).1 conv.chatId =
          some c' ∧ c'.awaitingApproval = true) := by
  have hguard : (conv.isAgentActive || conv.awaitingApproval) = false := by simp [ha, hw]
  have hsf := setFriendName_get t conv.chatId friendName conv h
  have hma := markAwaitingApproval_get (setFriendName t conv.chatId friendName) conv.chatId
    { conv with friendName := friendName } hsf
  have hrc := resetConversation_get
    (markAwaitingApproval (setFriendName t conv.chatId friendName) conv.chatId) conv.chatId
    { conv with friendName := friendName, awaitingApproval := true } hma
  cases sendOk with
  | false =>
      refine ⟨⟨0, 1, by omega, ?_, ?_⟩, ?_, ?_⟩
      · simp [sendTakeoverPrompt, hguard]
      · simp [sendTakeoverPrompt, hguard]
      · intro _
        refine ⟨{ conv with
                    friendName := friendName, isAgentActive := false,
                    awaitingApproval := false, messagesSent := 0 }, ?_, rfl⟩
        simpa [sendTakeoverPrompt, hguard] using hrc
      · intro hcontra
        exact absurd hcontra (by simp)
  | true =>
      refine ⟨⟨0, 1, by omega, ?_, ?_⟩, ?_, ?_⟩
      · simp [sendTakeoverPrompt, hguard]
      · simp [sendTakeoverPrompt, hguard]
      · intro hcontra
        exact absurd hcontra (by simp)
      · intro _
        refine ⟨{ conv with friendName := friendName, awaitingApproval := true }, ?_, rfl⟩
        simpa [sendTakeoverPrompt, hguard] using hma

/-- Witness for `offer_marks_awaiting_before_send` with a failing send. -/
theorem offer_marks_awaiting_before_send_witness :
    getConversation [("friend", convIdleF)] convIdleF.chatId = some convIdleF ∧
    (∃ i j, i < j ∧
      (sendTakeoverPrompt [("friend", convIdleF)] convIdleF "Sam" false).2.get? i =
        some OfferEvent.markedAwaiting ∧
      (sendTakeoverPrompt [("friend", convIdleF)] convIdleF "Sam" false).2.get? j =
        some OfferEvent.sendAttempt) ∧
    (false = false →
      ∃ c', getConversation (sendTakeoverPrompt [("friend", convIdleF)] convIdleF "Sam" false).1
          convIdleF.chatId = some c' ∧ c'.awaitingApproval = false) :=
  ⟨by decide,
   (offer_marks_awaiting_before_send [("friend", convIdleF)] convIdleF "Sam" false
      (by decide) (by decide) (by decide)).1,
   (offer_marks_awaiting_before_send [("friend", convIdleF)] convIdleF "Sam" false
      (by decide) (by decide) (by decide)).2.1⟩

/-- C6: the code violates the claim.  A counterpart message at t=50 arrives
while `convCooling` is in the grace window, so a delayed re-check is
scheduled (`reactivationScheduleCheck` passes at t=100 within the window).
The user then manually messages the thread at t=60 (non-automated own
message) — yet the delay-expiry guard still passes, so `activateAgent` is
invoked and the automated session is re-entered despite the user's
intervention: the re-check `!isAgentActive && !awaitingApproval` cannot
distinguish "still cooling down" from "user took over". -/
theorem reactivation_ignores_user_intervention :
    reactivationScheduleCheck convCooling 100 = true ∧
    reactivationExpiryCheck
      (updateOutgoingMessage
        (updateIncomingMessage [("friend", convCooling)] "friend"
          { text := "u there?", date := 50, isFromMe := false } 50)
        "friend" { text := "hey sorry, I got it from here", date := 60, isFromMe := true }
        false 60)
      "friend" = true := by
  decide

/-- C7: a conversation whose agent is active or which awaits approval is
never selected by `getInactiveConversations`, for any scan time, bounds or
exclusion identifier. -/
theorem active_or_awaiting_never_offered (t : Tracker)
    (now thresholdMs maxInactivityMs : Int) (uid : Option String)
    (conv : ConversationState)
    (h : conv.isAgentActive = true ∨ conv.awaitingApproval = true) :
    conv ∉ getInactiveConversations t now thresholdMs maxInactivityMs uid := by
  intro hmem
  rw [getInactiveConversations, List.mem_filter] at hmem
  have helig := (eligibleForOffer_eq_true_iff conv now thresholdMs maxInactivityMs uid).mp hmem.2
  rcases h with h | h
  · simp [h] at helig
  · simp [h] at helig

/-- Witness for `active_or_awaiting_never_offered`. -/
theorem active_or_awaiting_never_offered_witness :
    (convActiveOff.isAgentActive = true ∨ convActiveOff.awaitingApproval = true) ∧
    convActiveOff ∉ getInactiveConversations [("friend", convActiveOff)] 100 60 1000 none :=
  ⟨Or.inl rfl,
   active_or_awaiting_never_offered [("friend", convActiveOff)] 100 60 1000 none
     convActiveOff (Or.inl rfl)⟩

theorem skipSelfCheck_congr (c d : ConversationState) (h : c.chatId = d.chatId)
    (uid : Option String) : skipSelfCheck c uid = skipSelfCheck d uid := by
  cases uid <;> simp [skipSelfCheck, h]

/-- C8: both eligibility bounds are inclusive.  For an otherwise eligible
conversation, inactivity exactly `thresholdMs` is selected, one millisecond
below is not, exactly `maxInactivityMs` is selected, one millisecond above
is not. -/
theorem eligibility_bounds_inclusive (c : ConversationState)
    (now thresholdMs maxInactivityMs tIn : Int) (uid : Option String)
    (hskip : skipSelfCheck c uid = false)
    (ha : c.isAgentActive = false) (hw : c.awaitingApproval = false)
    (hin : c.lastIncomingTimestamp = some tIn) (hrecent : now - tIn < 300000)
    (hthmx : thresholdMs ≤ maxInactivityMs) :
    ({ c with lastOutgoingTimestamp := now - thresholdMs } ∈
        getInactiveConversations
          [(c.chatId, { c with lastOutgoingTimestamp := now - thresholdMs })]
          now thresholdMs maxInactivityMs uid) ∧
    ({ c with lastOutgoingTimestamp := now - thresholdMs + 1 } ∉
        getInactiveConversations
          [(c.chatId, { c with lastOutgoingTimestamp := now - thresholdMs + 1 })]
          now thresholdMs maxInactivityMs uid) ∧
    ({ c with lastOutgoingTimestamp := now - maxInactivityMs } ∈
        getInactiveConversations
          [(c.chatId, { c with lastOutgoingTimestamp := now - maxInactivityMs })]
          now thresholdMs maxInactivityMs uid) ∧
    ({ c with lastOutgoingTimestamp := now - maxInactivityMs - 1 } ∉
        getInactiveConversations
          [(c.chatId, { c with lastOutgoingTimestamp := now - maxInactivityMs - 1 })]
          now thresholdMs maxInactivityMs uid) := by
  refine ⟨?_, ?_, ?_, ?_⟩
  · rw [getInactiveConversations, List.mem_filter]
    refine ⟨by simp, ?_⟩
    rw [eligibleForOffer_eq_true_iff]
    exact ⟨(skipSelfCheck_congr _ c rfl uid).trans hskip, ha, hw,
      by simp <;> omega, by simp <;> omega, ⟨tIn, hin, hrecent⟩⟩
  · intro hmem
    rw [getInactiveConversations, List.mem_filter] at hmem
    have helig := (eligibleForOffer_eq_true_iff _ now thresholdMs maxInactivityMs uid).mp hmem.2
    have hb : thresholdMs ≤ now - (now - thresholdMs + 1) := helig.2.2.2.1
    omega
  · rw [getInactiveConversations, List.mem_filter]
    refine ⟨by simp, ?_⟩
    rw [eligibleForOffer_eq_true_iff]
    exact ⟨(skipSelfCheck_congr _ c rfl uid).trans hskip, ha, hw,
      by simp <;> omega, by simp <;> omega, ⟨tIn, hin, hrecent⟩⟩
  · intro hmem
    rw [getInactiveConversations, List.mem_filter] at hmem
    have helig := (eligibleForOffer_eq_true_iff _ now thresholdMs maxInactivityMs uid).mp hmem.2
    have hb : now - (now - maxInactivityMs - 1) ≤ maxInactivityMs := helig.2.2.2.2.1
    omega

/-- Witness for `eligibility_bounds_inclusive` at a concrete conversation. -/
theorem eligibility_bounds_inclusive_witness :
    ({ convIdleF with lastOutgoingTimestamp := (100 : Int) - 60 } ∈
        getInactiveConversations
          [(convIdleF.chatId, { convIdleF with lastOutgoingTimestamp := (100 : Int) - 60 })]
          100 60 90 none) ∧
    ({ convIdleF with lastOutgoingTimestamp := (100 : Int) - 60 + 1 } ∉
        getInactiveConversations
          [(convIdleF.chatId, { convIdleF with lastOutgoingTimestamp := (100 : Int) - 60 + 1 })]
          100 60 90 none) ∧
    ({ convIdleF with lastOutgoingTimestamp := (100 : Int) - 90 } ∈
        getInactiveConversations
          [(convIdleF.chatId, { convIdleF with lastOutgoingTimestamp := (100 : Int) - 90 })]
          100 60 90 none) ∧
    ({ convIdleF with lastOutgoingTimestamp := (100 : Int) - 90 - 1 } ∉
        getInactiveConversations
          [(convIdleF.chatId, { convIdleF with lastOutgoingTimestamp := (100 : Int) - 90 - 1 })]
          100 60 90 none) :=
  eligibility_bounds_inclusive convIdleF 100 60 90 50 none (by decide) rfl rfl rfl
    (by decide) (by decide)

/-- C9: counterexample.  The claim says a direct-lookup mutation of a missing
conversation id propagates as a hard failure; in the code every such mutator
silently returns with the store unchanged. -/
theorem missing_id_mutators_cex :
    markAwaitingApproval [("a", convIdleF)] "b" = [("a", convIdleF)] ∧
    markAgentActive [("a", convIdleF)] "b" = [("a", convIdleF)] ∧
    markAgentInactive [("a", convIdleF)] "b" 5 = [("a", convIdleF)] ∧
    incrementMessageCount [("a", convIdleF)] "b" = [("a", convIdleF)] ∧
    resetConversation [("a", convIdleF)] "b" = [("a", convIdleF)] ∧
    setFriendName [("a", convIdleF)] "b" "x" = [("a", convIdleF)] := by
  decide

/-- C9 (amended): asking the store to mutate a nonexistent conversation id
via any direct-lookup mutator is a silent no-op — the store is returned
unchanged, and no failure is raised. -/
theorem missing_id_mutators_are_noops (t : Tracker) (chatId : String)
    (now : Int) (name : String) (h : getConversation t chatId = none) :
    markAwaitingApproval t chatId = t ∧ markAgentActive t chatId = t ∧
    markAgentInactive t chatId now = t ∧ incrementMessageCount t chatId = t ∧
    resetConversation t chatId = t ∧ setFriendName t chatId name = t := by
  refine ⟨?_, ?_, ?_, ?_, ?_, ?_⟩ <;>
    simp [markAwaitingApproval, markAgentActive, markAgentInactive,
      incrementMessageCount, resetConversation, setFriendName, h]

/-- Witness for `missing_id_mutators_are_noops` on the empty store. -/
theorem missing_id_mutators_are_noops_witness :
    markAwaitingApproval [] "z" = ([] : Tracker) ∧ markAgentActive [] "z" = ([] : Tracker) ∧
    markAgentInactive [] "z" 0 = ([] : Tracker) ∧ incrementMessageCount [] "z" = ([] : Tracker) ∧
    resetConversation [] "z" = ([] : Tracker) ∧ setFriendName [] "z" "n" = ([] : Tracker) :=
  missing_id_mutators_are_noops [] "z" 0 "n" rfl
